import Mathlib

/-!
Shallow embedding of the notebook `aisp/nb4_cross_validation.ipynb` and proofs
of the claims about it.  The notebook is parameter plumbing around the
scikit-learn library: it loads a CSV, defines a helper `rate_accuracy`, calls
it ten times with three different splitter classes, and runs a grid search.
Library routines (`cross_val_score`, the splitter constructors, the random
forest, `GridSearchCV`) are modelled by oracles or, where a claim is about
their documented behaviour, by definitions marked `Modelled from the spec`.
-/

/-- Cell of the pandas DataFrame: a numeric entry or a string entry. -/
inductive Cell
  | num (q : ℚ)
  | str (s : String)
deriving DecidableEq, Repr

/-- A row of the DataFrame is its list of cells; the frame is its list of rows. -/
abbrev Row := List Cell

abbrev DataFrame := List Row

/-- Embedding of the notebook cell `x_iris = iris.iloc[:, 1:-1]`: every row
restricted to the columns from index 1 up to, but excluding, the last one. -/
def x_iris (iris : DataFrame) : DataFrame :=
  iris.map (fun r => (r.drop 1).dropLast)

/-- Embedding of the notebook cell `y_iris = iris.iloc[:, -1]`: the last column.
A row is never empty in the loaded frame; on an empty row the embedding yields
a default cell, which no claim depends on. -/
def y_iris (iris : DataFrame) : List Cell :=
  iris.map (fun r => r.getLastD (Cell.str ("")))

/-- Modelled from the spec: `train_test_split` (library code, not in the
repository) permutes the row indices with its seeded RNG and splits off the
requested number of test rows.  The permuted index list the RNG produces is a
parameter `idx`; `nTest` is the number of test rows.  Rows of `x` and entries
of `y` are selected by the same indices, test part first as in the library. -/
def train_test_split (idx : List ℕ) (nTest : ℕ) (x : List α) (y : List β) :
    (List α × List α) × (List β × List β) :=
  let testIdx := idx.take nTest
  let trainIdx := idx.drop nTest
  ((trainIdx.filterMap (fun i => x[i]?), testIdx.filterMap (fun i => x[i]?)),
   (trainIdx.filterMap (fun i => y[i]?), testIdx.filterMap (fun i => y[i]?)))

/-- Embedding of numpy `ndarray.mean()` on the score array. -/
def npMean (xs : List ℚ) : ℚ := xs.sum / xs.length

/-- Embedding of the population variance underlying numpy `ndarray.std()`
(mean of the squared deviations from the mean, `ddof = 0`). -/
def npVariance (xs : List ℚ) : ℚ :=
  ((xs.map (fun v => (v - npMean xs) ^ 2)).sum) / xs.length

/-- Embedding of numpy `ndarray.std()`: the square root of the population
variance.  The value is a real number; the notebook formats it with `%0.2f`. -/
noncomputable def npStd (xs : List ℚ) : ℝ := Real.sqrt (npVariance xs)

/-- The three splitter classes the notebook imports and passes to
`rate_accuracy` as its `validator` argument. -/
inductive ValidatorKind
  | kfold
  | stratifiedKFold
  | stratifiedShuffleSplit
deriving DecidableEq, Repr

/-- The keyword arguments a splitter constructor is invoked with: `n_splits`
always, `shuffle=True` and `random_state=52` only on the shuffle branch of
`rate_accuracy`.  A `none` field records that the keyword was not passed. -/
structure SplitterInit where
  validator : ValidatorKind
  n_splits : ℕ
  shuffle : Option Bool
  random_state : Option ℕ
deriving DecidableEq, Repr

/-- Embedding of `RandomForestClassifier(...)`: the keyword arguments the
constructor receives.  The notebook always constructs it with none. -/
structure RandomForestClassifier where
  kwargs : List (String × String)
deriving DecidableEq, Repr

/-- Python truthiness of the `Optional[bool]` argument `shuffle`: `None` and
`False` are falsy, `True` is truthy. -/
def truthy : Option Bool → Bool
  | some b => b
  | none => false

/-- Everything one call of `rate_accuracy` does, recorded: the classifier it
constructs, the splitter constructor invocations in order, the splitter handed
to `cross_val_score`, the score array that comes back, the interpolated title
and mean of the one printed line, and the return value (`None`). -/
structure RAOutput where
  classifier : RandomForestClassifier
  constructedSplitters : List SplitterInit
  cvSplitter : SplitterInit
  scores : List ℚ
  printedTitle : String
  printedMean : ℚ
  ret : Option Unit
deriving Repr

/-- Embedding of the helper `def rate_accuracy(x, y, title, *, validator,
shuffle=None, n_splits)` of the notebook.  The library call
`cross_val_score(random_forest, x, y, cv=..., scoring="accuracy")` is the
oracle parameter `cross_val_score`.  The body first constructs
`validator(n_splits=n_splits)`; if `shuffle` is truthy it discards that
splitter and constructs `validator(n_splits=n_splits, shuffle=True,
random_state=52)` instead; it scores, prints one line, and returns `None`. -/
def rate_accuracy
    (cross_val_score :
      RandomForestClassifier → DataFrame → List Cell → SplitterInit → String → List ℚ)
    (x : DataFrame) (y : List Cell) (title : String)
    (validator : ValidatorKind) (shuffle : Option Bool) (n_splits : ℕ) : RAOutput :=
  let random_forest : RandomForestClassifier := ⟨[]⟩
  let first : SplitterInit :=
    { validator := validator, n_splits := n_splits, shuffle := none, random_state := none }
  let second : SplitterInit :=
    { validator := validator, n_splits := n_splits, shuffle := some true,
      random_state := some 52 }
  let validator_initialized := if truthy shuffle then second else first
  let kfold_score := cross_val_score random_forest x y validator_initialized ("accuracy")
  { classifier := random_forest
    constructedSplitters := if truthy shuffle then [first, second] else [first]
    cvSplitter := validator_initialized
    scores := kfold_score
    printedTitle := title
    printedMean := npMean kfold_score
    ret := none }

/-- The real number interpolated for the second `%0.2f` of the printed line:
the source prints `kfold_score.std() * 2`. -/
noncomputable def printedSpread (o : RAOutput) : ℝ := npStd o.scores * 2

/-- A Python exception raised by the underlying library. -/
structure PyError where
  message : String
deriving DecidableEq, Repr

/-- Exception-aware form of `rate_accuracy`: the library oracle may raise.
The source contains no `try`/`except`, so the body has no branch of its own
for the error case and the exception propagates unchanged to the caller. -/
def rate_accuracyE
    (cross_val_score :
      RandomForestClassifier → DataFrame → List Cell → SplitterInit → String →
        Except PyError (List ℚ))
    (x : DataFrame) (y : List Cell) (title : String)
    (validator : ValidatorKind) (shuffle : Option Bool) (n_splits : ℕ) :
    Except PyError RAOutput :=
  let random_forest : RandomForestClassifier := ⟨[]⟩
  let first : SplitterInit :=
    { validator := validator, n_splits := n_splits, shuffle := none, random_state := none }
  let second : SplitterInit :=
    { validator := validator, n_splits := n_splits, shuffle := some true,
      random_state := some 52 }
  let validator_initialized := if truthy shuffle then second else first
  match cross_val_score random_forest x y validator_initialized ("accuracy") with
  | Except.error e => Except.error e
  | Except.ok kfold_score =>
      Except.ok
        { classifier := random_forest
          constructedSplitters := if truthy shuffle then [first, second] else [first]
          cvSplitter := validator_initialized
          scores := kfold_score
          printedTitle := title
          printedMean := npMean kfold_score
          ret := none }

/-- A hyperparameter candidate value of the grid: an integer, a string, a
rational (for `min_weight_fraction_leaf`), or Python `None` (for
`max_depth`). -/
inductive HParam
  | int (n : ℕ)
  | str (s : String)
  | rat (q : ℚ)
  | null
deriving DecidableEq, Repr

/-- Result of fitting `GridSearchCV`: the attribute `best_params_` the
notebook reads, as a combination of (parameter name, chosen value) pairs. -/
structure FittedGridSearch where
  best_params_ : List (String × HParam)
deriving DecidableEq, Repr

/-- Exception-aware form of the grid-search cell: `train_test_split`, then
`GridSearchCV(RandomForestClassifier(), param_grid=...).fit(...)`, then the
read of `best_params_`.  Both library steps are oracles that may raise; the
cell has no handler, so either exception propagates unchanged. -/
def gridSearchCellE {σ : Type}
    (train_test_split_r : Except PyError σ)
    (fit_r : σ → Except PyError FittedGridSearch) :
    Except PyError (List (String × HParam)) :=
  match train_test_split_r with
  | Except.error e => Except.error e
  | Except.ok split =>
      match fit_r split with
      | Except.error e => Except.error e
      | Except.ok gs => Except.ok gs.best_params_

/-- Embedding of the dictionary `parameters_grid` of the notebook: the fixed
hyperparameter grid, a mapping from parameter name to the tuple of candidate
values, in source order. -/
def parameters_grid : List (String × List HParam) :=
  [(("n_estimators"), [HParam.int 10, HParam.int 100, HParam.int 1000]),
   (("criterion"), [HParam.str ("gini"), HParam.str ("entropy"), HParam.str ("log_loss")]),
   (("max_depth"), [HParam.int 10, HParam.int 100, HParam.null]),
   (("min_samples_split"), [HParam.int 2, HParam.int 4, HParam.int 6]),
   (("min_samples_leaf"), [HParam.int 1, HParam.int 2, HParam.int 3]),
   (("min_weight_fraction_leaf"), [HParam.rat (1/10), HParam.rat (1/100), HParam.rat 0])]

/-- Modelled from the spec: the combinations `GridSearchCV` examines, namely
every element of the Cartesian product of the candidate tuples, one (name,
value) pair per grid entry.  `GridSearchCV` is library code, not in the
repository; the spec glossary defines grid search as an exhaustive search
over this Cartesian product. -/
def gridCombinations : List (String × List HParam) → List (List (String × HParam))
  | [] => [[]]
  | p :: rest =>
      p.2.flatMap (fun v => (gridCombinations rest).map (fun c => (p.1, v) :: c))

/-- First maximum of a list under a score, the way numpy argmax breaks ties:
the accumulator is replaced only by a strictly better candidate. -/
def bestBy (score : α → ℚ) : List α → Option α
  | [] => none
  | a :: l => some (l.foldl (fun b c => if score b < score c then c else b) a)

/-- Modelled from the spec: `GridSearchCV(...).fit` followed by the read of
`best_params_` returns the best-performing combination among all examined
ones.  The mean cross-validation score each combination obtains is the oracle
parameter `score`. -/
def grid_search_best_params (score : List (String × HParam) → ℚ)
    (grid : List (String × List HParam)) : Option (List (String × HParam)) :=
  bestBy score (gridCombinations grid)

/-- One top-level invocation of `rate_accuracy` in the notebook: its title
string, the splitter class, the `shuffle` keyword (`none` when omitted), and
the fold count. -/
structure RACall where
  title : String
  validator : ValidatorKind
  shuffle : Option Bool
  n_splits : ℕ
deriving DecidableEq, Repr

/-- The ten `rate_accuracy` invocations of the notebook, in source order.
The K-Fold and Stratified K-Fold calls pass `shuffle=True`; the Stratified
Shuffle Split calls omit the keyword. -/
def notebookCalls : List RACall :=
  [⟨("K-Fold accuracy"), ValidatorKind.kfold, some true, 5⟩,
   ⟨("K-Fold accuracy with 15 splits"), ValidatorKind.kfold, some true, 15⟩,
   ⟨("K-Fold accuracy with 10 splits"), ValidatorKind.kfold, some true, 10⟩,
   ⟨("K-Fold accuracy with 3 splits"), ValidatorKind.kfold, some true, 3⟩,
   ⟨("Stratified K-Fold accuracy with 15 splits"), ValidatorKind.stratifiedKFold, some true, 15⟩,
   ⟨("Stratified K-Fold accuracy with 10 splits"), ValidatorKind.stratifiedKFold, some true, 10⟩,
   ⟨("Stratified K-Fold accuracy with 3 splits"), ValidatorKind.stratifiedKFold, some true, 3⟩,
   ⟨("Stratified Shuffle Split accuracy with 15 splits"), ValidatorKind.stratifiedShuffleSplit, none, 15⟩,
   ⟨("Stratified Shuffle Split accuracy with 10 splits"), ValidatorKind.stratifiedShuffleSplit, none, 10⟩,
   ⟨("Stratified Shuffle Split accuracy with 3 splits"), ValidatorKind.stratifiedShuffleSplit, none, 3⟩]

/-- A fixed dummy scoring oracle, used where only the splitter configuration
of a call matters; the configuration does not depend on the oracle (see
`rate_accuracy_cvSplitter_independent`). -/
def cvs0 : RandomForestClassifier → DataFrame → List Cell → SplitterInit → String → List ℚ :=
  fun _ _ _ _ _ => []

/-- The splitter each notebook invocation hands to `cross_val_score`,
obtained by running the `rate_accuracy` embedding on each call. -/
def notebookSplitters : List SplitterInit :=
  notebookCalls.map
    (fun c => (rate_accuracy cvs0 [] [] c.title c.validator c.shuffle c.n_splits).cvSplitter)

/-- Whether a constructed splitter randomizes its fold assignment, per the
library documentation the spec summarizes: K-Fold and Stratified K-Fold
shuffle exactly when constructed with `shuffle=True`; Stratified Shuffle
Split always draws randomized splits. -/
def shufflesData (s : SplitterInit) : Bool :=
  match s.validator with
  | ValidatorKind.stratifiedShuffleSplit => true
  | _ => s.shuffle.getD false

/-- The keyword arguments of the one `train_test_split` call of the
notebook. -/
structure TTSCall where
  test_size : ℚ
  random_state : Option ℕ
deriving DecidableEq, Repr

/-- Embedding of the cell `train_test_split(x_iris, y_iris, test_size=0.3,
random_state=52)`. -/
def notebookTrainTestSplit : TTSCall := ⟨3/10, some 52⟩

/-- An externally visible effect a notebook statement can perform.  The type
lists the effects relevant to the frame claims; the trace of the notebook
uses only the first two constructors. -/
inductive Effect
  | readFile (path : String)
  | consoleOut (text : String)
  | writeFile (path : String) (data : String)
  | readCliFlag (name : String)
  | readPersistentState (key : String)
  | writePersistentState (key : String) (data : String)
deriving DecidableEq, Repr

/-- Whether an effect is console output. -/
def Effect.isConsoleOutput : Effect → Bool
  | Effect.consoleOut _ => true
  | _ => false

/-- The effect trace of one top-to-bottom run of the notebook: the
`read_csv` of the CSV at its relative path, the display of `iris.head()`,
one printed line per `rate_accuracy` call, and the displays of
`best_params_` and of the final score.  The rendered texts depend on library
numerics and float formatting, so they are oracle parameters. -/
def notebookEffects (headText : String) (rateLine : RACall → String)
    (bestParamsText scoreText : String) : List Effect :=
  [Effect.readFile ("../datasets/iris.csv"), Effect.consoleOut headText] ++
  (notebookCalls.map (fun c => Effect.consoleOut (rateLine c))) ++
  [Effect.consoleOut bestParamsText, Effect.consoleOut scoreText]

/-- The argument arrays of a `rate_accuracy` call, threaded as state. -/
structure CallState where
  x : DataFrame
  y : List Cell
deriving Repr

/-- State-passing form of `rate_accuracy`: the argument arrays are received
as state and handed back after the call together with the output.  The body
of the source assigns only to the fresh local names `random_forest`,
`validator_initialized` and `kfold_score`; it contains no statement that
writes to `x`, to `y`, or to any global, so the state it returns is the
state it received. -/
def rate_accuracy_state
    (cross_val_score :
      RandomForestClassifier → DataFrame → List Cell → SplitterInit → String → List ℚ)
    (st : CallState) (title : String)
    (validator : ValidatorKind) (shuffle : Option Bool) (n_splits : ℕ) :
    CallState × RAOutput :=
  (⟨st.x, st.y⟩, rate_accuracy cross_val_score st.x st.y title validator shuffle n_splits)


/-- Pointwise: when the lengths agree, indexing one of the two lists is the
corresponding projection of indexing the zipped list. -/
theorem getElem?_proj_zip {α β : Type} (x : List α) (y : List β)
    (h : x.length = y.length) (i : ℕ) :
    x[i]? = ((x.zip y)[i]?).map Prod.fst ∧ y[i]? = ((x.zip y)[i]?).map Prod.snd := by
  by_cases hi : i < x.length
  · have hiy : i < y.length := by omega
    have hiz : i < (x.zip y).length := by
      rw [List.length_zip]; omega
    rw [List.getElem?_eq_getElem hi, List.getElem?_eq_getElem hiy,
      List.getElem?_eq_getElem hiz, List.getElem_zip]
    exact ⟨rfl, rfl⟩
  · have hx : x[i]? = none := List.getElem?_eq_none (by omega)
    have hy : y[i]? = none := List.getElem?_eq_none (by omega)
    have hz : (x.zip y)[i]? = none := List.getElem?_eq_none (by rw [List.length_zip]; omega)
    rw [hx, hy, hz]
    exact ⟨rfl, rfl⟩

/-- Selecting rows by indices commutes with the first projection of the
zipped list when the lengths agree. -/
theorem filterMap_getElem?_zip_fst {α β : Type} (x : List α) (y : List β)
    (h : x.length = y.length) (idx : List ℕ) :
    idx.filterMap (fun i => x[i]?) =
      (idx.filterMap (fun i => (x.zip y)[i]?)).map Prod.fst := by
  have hfun : (fun i => x[i]?) = (fun i => ((x.zip y)[i]?).map Prod.fst) :=
    funext (fun i => (getElem?_proj_zip x y h i).1)
  rw [List.map_filterMap, hfun]

/-- Selecting labels by indices commutes with the second projection of the
zipped list when the lengths agree. -/
theorem filterMap_getElem?_zip_snd {α β : Type} (x : List α) (y : List β)
    (h : x.length = y.length) (idx : List ℕ) :
    idx.filterMap (fun i => y[i]?) =
      (idx.filterMap (fun i => (x.zip y)[i]?)).map Prod.snd := by
  have hfun : (fun i => y[i]?) = (fun i => ((x.zip y)[i]?).map Prod.snd) :=
    funext (fun i => (getElem?_proj_zip x y h i).2)
  rw [List.map_filterMap, hfun]

/-- C5: the feature matrix and the label vector extracted from the loaded
dataset have the same number of rows, and the train/test split keeps each
feature row paired with its label: for every index permutation the seeded RNG
may produce, the train (respectively test) features and labels are the two
projections of one common selection of (row, label) pairs, so a row and its
label always land in the same partition, at the same position. -/
theorem split_preserves_row_label_pairing (iris : DataFrame) (idx : List ℕ) (nTest : ℕ) :
    (x_iris iris).length = (y_iris iris).length ∧
    (train_test_split idx nTest (x_iris iris) (y_iris iris)).1.1 =
      ((idx.drop nTest).filterMap
        (fun i => ((x_iris iris).zip (y_iris iris))[i]?)).map Prod.fst ∧
    (train_test_split idx nTest (x_iris iris) (y_iris iris)).2.1 =
      ((idx.drop nTest).filterMap
        (fun i => ((x_iris iris).zip (y_iris iris))[i]?)).map Prod.snd ∧
    (train_test_split idx nTest (x_iris iris) (y_iris iris)).1.2 =
      ((idx.take nTest).filterMap
        (fun i => ((x_iris iris).zip (y_iris iris))[i]?)).map Prod.fst ∧
    (train_test_split idx nTest (x_iris iris) (y_iris iris)).2.2 =
      ((idx.take nTest).filterMap
        (fun i => ((x_iris iris).zip (y_iris iris))[i]?)).map Prod.snd := by
  have hlen : (x_iris iris).length = (y_iris iris).length := by
    simp [x_iris, y_iris]
  exact ⟨hlen,
    filterMap_getElem?_zip_fst _ _ hlen _,
    filterMap_getElem?_zip_snd _ _ hlen _,
    filterMap_getElem?_zip_fst _ _ hlen _,
    filterMap_getElem?_zip_snd _ _ hlen _⟩

/-- C2: `rate_accuracy` accepts the feature matrix, label vector, splitter
configuration (validator class plus optional shuffle flag) and fold count; it
constructs a fresh default classifier, scores that classifier on the given
data with accuracy scoring and the splitter it selected, prints one summary
line whose title and mean are recorded, and returns `None`. -/
theorem rate_accuracy_io_contract
    (cvs : RandomForestClassifier → DataFrame → List Cell → SplitterInit → String → List ℚ)
    (x : DataFrame) (y : List Cell) (title : String)
    (validator : ValidatorKind) (shuffle : Option Bool) (n_splits : ℕ) :
    (rate_accuracy cvs x y title validator shuffle n_splits).classifier =
      ⟨[]⟩ ∧
    (rate_accuracy cvs x y title validator shuffle n_splits).scores =
      cvs ⟨[]⟩ x y (rate_accuracy cvs x y title validator shuffle n_splits).cvSplitter
        ("accuracy") ∧
    (rate_accuracy cvs x y title validator shuffle n_splits).printedTitle = title ∧
    (rate_accuracy cvs x y title validator shuffle n_splits).printedMean =
      npMean ((rate_accuracy cvs x y title validator shuffle n_splits).scores) ∧
    (rate_accuracy cvs x y title validator shuffle n_splits).ret = none :=
  ⟨rfl, rfl, rfl, rfl, rfl⟩

/-- C8 (amendable reading is the literal one, which holds): when `shuffle` is
omitted, `None` or `False` the splitter is built with only `n_splits`; when
`shuffle` is truthy the first splitter is discarded for one built with
`n_splits`, `shuffle=True` and `random_state=52`, and that replacement is the
splitter handed to the scoring routine. -/
theorem rate_accuracy_shuffle_branch
    (cvs : RandomForestClassifier → DataFrame → List Cell → SplitterInit → String → List ℚ)
    (x : DataFrame) (y : List Cell) (title : String)
    (validator : ValidatorKind) (n_splits : ℕ) :
    truthy none = false ∧ truthy (some false) = false ∧ truthy (some true) = true ∧
    ∀ shuffle : Option Bool,
      (rate_accuracy cvs x y title validator shuffle n_splits).constructedSplitters =
        (if truthy shuffle then
          [⟨validator, n_splits, none, none⟩, ⟨validator, n_splits, some true, some 52⟩]
         else [⟨validator, n_splits, none, none⟩]) ∧
      (rate_accuracy cvs x y title validator shuffle n_splits).cvSplitter =
        (if truthy shuffle then ⟨validator, n_splits, some true, some 52⟩
         else ⟨validator, n_splits, none, none⟩) :=
  ⟨rfl, rfl, rfl, fun _ => ⟨rfl, rfl⟩⟩

/-- C9: the call never mutates its array arguments: the state handed back
equals the state received, and a second invocation run right after the first,
with the same arguments and the same library behaviour, produces the same
output as the first, so successive invocations are independent. -/
theorem rate_accuracy_frame_effect
    (cvs : RandomForestClassifier → DataFrame → List Cell → SplitterInit → String → List ℚ)
    (st : CallState) (title : String)
    (validator : ValidatorKind) (shuffle : Option Bool) (n_splits : ℕ) :
    (rate_accuracy_state cvs st title validator shuffle n_splits).1 = st ∧
    (rate_accuracy_state cvs st title validator shuffle n_splits).1.x = st.x ∧
    (rate_accuracy_state cvs st title validator shuffle n_splits).1.y = st.y ∧
    (rate_accuracy_state cvs
        (rate_accuracy_state cvs st title validator shuffle n_splits).1
        title validator shuffle n_splits).2 =
      (rate_accuracy_state cvs st title validator shuffle n_splits).2 := by
  cases st
  exact ⟨rfl, rfl, rfl, rfl⟩

/-- C1, amended: the spread interpolated into the printed line is twice the
standard deviation of the per-fold accuracy scores: twice the standard
deviation of the score array recorded in the output, which is the array the
scoring oracle returns for the splitter the call selected. -/
theorem rate_accuracy_spread_twice_std
    (cvs : RandomForestClassifier → DataFrame → List Cell → SplitterInit → String → List ℚ)
    (x : DataFrame) (y : List Cell) (title : String)
    (validator : ValidatorKind) (shuffle : Option Bool) (n_splits : ℕ) :
    printedSpread (rate_accuracy cvs x y title validator shuffle n_splits) =
      2 * npStd ((rate_accuracy cvs x y title validator shuffle n_splits).scores) ∧
    printedSpread (rate_accuracy cvs x y title validator shuffle n_splits) =
      2 * npStd (cvs ⟨[]⟩ x y
        (if truthy shuffle then ⟨validator, n_splits, some true, some 52⟩
         else ⟨validator, n_splits, none, none⟩) ("accuracy")) :=
  ⟨mul_comm _ _, mul_comm _ _⟩

/-- C1, counterexample: on a call whose per-fold accuracies are 0 and 1, the
value the line prints as the spread is 1 while the standard deviation of the
per-fold accuracies is 1/2, so the printed spread is not the standard
deviation. -/
theorem printedSpread_ne_std_counterexample :
    printedSpread (rate_accuracy (fun _ _ _ _ _ => [0, 1]) [] [] ("K-Fold accuracy")
        ValidatorKind.kfold (some true) 5) ≠
      npStd ((rate_accuracy (fun _ _ _ _ _ => [0, 1]) [] [] ("K-Fold accuracy")
        ValidatorKind.kfold (some true) 5).scores) := by
  have hsc : (rate_accuracy (fun _ _ _ _ _ => [0, 1]) [] [] ("K-Fold accuracy")
      ValidatorKind.kfold (some true) 5).scores = [0, 1] := rfl
  have hv : npVariance [0, 1] = 1 / 4 := by
    norm_num [npVariance, npMean]
  have hstd : npStd [0, 1] = 1 / 2 := by
    rw [npStd, hv]
    rw [show ((1 / 4 : ℚ) : ℝ) = (1 / 2 : ℝ) ^ 2 by norm_num]
    rw [Real.sqrt_sq (by norm_num)]
  simp only [printedSpread, hsc, hstd]
  norm_num

/-- C7: neither `rate_accuracy` nor the grid-search cell has an error branch
of its own: an exception raised by the scoring routine propagates unchanged
out of `rate_accuracy`, and an exception raised by `train_test_split` or by
the `GridSearchCV` fit propagates unchanged out of the grid-search cell. -/
theorem no_error_handling_propagation
    (cvsE : RandomForestClassifier → DataFrame → List Cell → SplitterInit → String →
      Except PyError (List ℚ))
    (x : DataFrame) (y : List Cell) (title : String)
    (validator : ValidatorKind) (shuffle : Option Bool) (n_splits : ℕ)
    (e : PyError) {σ : Type} (ttsE : Except PyError σ)
    (fitE : σ → Except PyError FittedGridSearch) :
    (cvsE ⟨[]⟩ x y (rate_accuracy cvs0 x y title validator shuffle n_splits).cvSplitter
        ("accuracy") = Except.error e →
      rate_accuracyE cvsE x y title validator shuffle n_splits = Except.error e) ∧
    (ttsE = Except.error e → gridSearchCellE ttsE fitE = Except.error e) ∧
    (∀ s : σ, ttsE = Except.ok s → fitE s = Except.error e →
      gridSearchCellE ttsE fitE = Except.error e) := by
  refine ⟨fun h => ?_, fun h => ?_, fun s hs hf => ?_⟩
  · have h' : cvsE ⟨[]⟩ x y
        (if truthy shuffle then
          ({ validator := validator, n_splits := n_splits, shuffle := some true,
             random_state := some 52 } : SplitterInit)
         else
          { validator := validator, n_splits := n_splits, shuffle := none,
            random_state := none }) ("accuracy") = Except.error e := h
    simp only [rate_accuracyE, h']
  · simp only [gridSearchCellE, h]
  · simp only [gridSearchCellE, hs, hf]

/-- Concrete instance of the propagation theorem: oracles that raise make the
embedded calls return exactly the raised exception. -/
theorem no_error_handling_propagation_witness :
    rate_accuracyE (fun _ _ _ _ _ => Except.error ⟨("cross_val_score failed")⟩)
        [] [] ("t") ValidatorKind.kfold none 3 =
      Except.error ⟨("cross_val_score failed")⟩ ∧
    gridSearchCellE ((Except.error ⟨("train_test_split failed")⟩ : Except PyError Unit))
        (fun _ => Except.ok ⟨[]⟩) = Except.error ⟨("train_test_split failed")⟩ ∧
    gridSearchCellE ((Except.ok () : Except PyError Unit))
        (fun _ => Except.error ⟨("fit failed")⟩) = Except.error ⟨("fit failed")⟩ :=
  ⟨(no_error_handling_propagation (fun _ _ _ _ _ => Except.error ⟨("cross_val_score failed")⟩)
      [] [] ("t") ValidatorKind.kfold none 3 ⟨("cross_val_score failed")⟩
      (Except.error ⟨("cross_val_score failed")⟩ : Except PyError Unit)
      (fun _ => Except.ok ⟨[]⟩)).1 rfl,
   (no_error_handling_propagation (fun _ _ _ _ _ => Except.error ⟨("x")⟩)
      [] [] ("t") ValidatorKind.kfold none 3 ⟨("train_test_split failed")⟩
      (Except.error ⟨("train_test_split failed")⟩ : Except PyError Unit)
      (fun _ => Except.ok ⟨[]⟩)).2.1 rfl,
   (no_error_handling_propagation (fun _ _ _ _ _ => Except.error ⟨("x")⟩)
      [] [] ("t") ValidatorKind.kfold none 3 ⟨("fit failed")⟩
      (Except.ok () : Except PyError Unit)
      (fun _ => Except.error ⟨("fit failed")⟩)).2.2 () rfl rfl⟩

/-- C4: every splitter the notebook hands to the scoring routine through
`rate_accuracy` is one of K-Fold, Stratified K-Fold or Stratified Shuffle
Split; each of the three occurs; and each of Stratified K-Fold and Stratified
Shuffle Split is exercised at fold counts 15, 10 and 3. -/
theorem notebook_splitters_coverage :
    (∀ s ∈ notebookSplitters,
      s.validator ∈ [ValidatorKind.kfold, ValidatorKind.stratifiedKFold,
        ValidatorKind.stratifiedShuffleSplit]) ∧
    (∀ v ∈ [ValidatorKind.kfold, ValidatorKind.stratifiedKFold,
        ValidatorKind.stratifiedShuffleSplit],
      ∃ s ∈ notebookSplitters, s.validator = v) ∧
    (∀ v ∈ [ValidatorKind.stratifiedKFold, ValidatorKind.stratifiedShuffleSplit],
      ∀ k ∈ ([15, 10, 3] : List ℕ),
        ∃ s ∈ notebookSplitters, s.validator = v ∧ s.n_splits = k) := by
  decide

/-- C10, counterexample: the splitter of the Stratified Shuffle Split call
with 15 splits is constructed with only `n_splits`, draws randomized splits,
and carries no `random_state`; hence it is not the case that every shuffled
fold assignment of the notebook is produced with the fixed seed 52. -/
theorem shuffle_split_unseeded_counterexample :
    (⟨ValidatorKind.stratifiedShuffleSplit, 15, none, none⟩ : SplitterInit) ∈
      notebookSplitters ∧
    shufflesData ⟨ValidatorKind.stratifiedShuffleSplit, 15, none, none⟩ = true ∧
    (⟨ValidatorKind.stratifiedShuffleSplit, 15, none, none⟩ : SplitterInit).random_state =
      none ∧
    ¬ (∀ s ∈ notebookSplitters, shufflesData s = true → s.random_state = some 52) := by
  decide

/-- C10, amended: the train/test split and every shuffled K-Fold or
Stratified K-Fold fold assignment are produced with `random_state=52`, so
those partitions are identical across runs; the Stratified Shuffle Split
splitters, however, are constructed without a `random_state`, so their
randomized fold assignments are not fixed by a seed. -/
theorem seeded_partitions_amended :
    notebookTrainTestSplit.random_state = some 52 ∧
    (∀ s ∈ notebookSplitters, s.validator ≠ ValidatorKind.stratifiedShuffleSplit →
      shufflesData s = true → s.random_state = some 52) ∧
    (∀ s ∈ notebookSplitters, s.validator = ValidatorKind.stratifiedShuffleSplit →
      s.random_state = none) := by
  decide

/-- Membership in the examined combinations is exactly a choice, for each grid
entry in order, of its name together with one of its candidate values. -/
theorem mem_gridCombinations (g : List (String × List HParam)) :
    ∀ c : List (String × HParam),
      c ∈ gridCombinations g ↔
        List.Forall₂ (fun pr q => pr.1 = q.1 ∧ pr.2 ∈ q.2) c g := by
  induction g with
  | nil =>
      intro c
      simp [gridCombinations, List.forall₂_nil_right_iff]
  | cons q rest ih =>
      intro c
      simp only [gridCombinations, List.mem_flatMap, List.mem_map,
        List.forall₂_cons_right_iff]
      constructor
      · rintro ⟨v, hv, c', hc', rfl⟩
        exact ⟨(q.1, v), c', ⟨rfl, hv⟩, (ih c').1 hc', rfl⟩
      · rintro ⟨a, c', ⟨ha1, ha2⟩, hf, rfl⟩
        obtain ⟨a1, a2⟩ := a
        cases ha1
        exact ⟨a2, ha2, c', (ih c').2 hf, rfl⟩

/-- The running best of the fold stays among the head and the scanned list. -/
theorem foldl_best_mem (score : α → ℚ) :
    ∀ (l : List α) (a : α),
      l.foldl (fun b c => if score b < score c then c else b) a ∈ a :: l := by
  intro l
  induction l with
  | nil => intro a; simp
  | cons d l ih =>
      intro a
      have h := ih (if score a < score d then d else a)
      simp only [List.foldl_cons]
      rcases List.mem_cons.mp h with h1 | h1
      · rw [h1]
        split
        · exact List.mem_cons_of_mem _ (List.mem_cons_self _ _)
        · exact List.mem_cons_self _ _
      · exact List.mem_cons_of_mem _ (List.mem_cons_of_mem _ h1)

/-- The running best of the fold scores at least as high as the head and as
every scanned element. -/
theorem foldl_best_le (score : α → ℚ) :
    ∀ (l : List α) (a c : α), c ∈ a :: l →
      score c ≤ score (l.foldl (fun b cc => if score b < score cc then cc else b) a) := by
  intro l
  induction l with
  | nil =>
      intro a c hc
      rcases List.mem_cons.mp hc with rfl | h
      · exact le_refl _
      · exact absurd h (List.not_mem_nil c)
  | cons d l ih =>
      intro a c hc
      simp only [List.foldl_cons]
      have hstep_a : score a ≤ score (if score a < score d then d else a) := by
        split
        · exact le_of_lt (by assumption)
        · exact le_refl _
      have hstep_d : score d ≤ score (if score a < score d then d else a) := by
        split
        · exact le_refl _
        · exact le_of_not_lt (by assumption)
      have hhead := ih (if score a < score d then d else a) _ (List.mem_cons_self _ _)
      rcases List.mem_cons.mp hc with rfl | h
      · exact le_trans hstep_a hhead
      · rcases List.mem_cons.mp h with rfl | h2
        · exact le_trans hstep_d hhead
        · exact ih (if score a < score d then d else a) c (List.mem_cons_of_mem _ h2)

/-- When it yields a result, `bestBy` yields a member of the list that scores
at least as high as every member. -/
theorem bestBy_spec (score : α → ℚ) (l : List α) (b : α)
    (h : bestBy score l = some b) : b ∈ l ∧ ∀ c ∈ l, score c ≤ score b := by
  cases l with
  | nil => simp [bestBy] at h
  | cons a l =>
      simp only [bestBy, Option.some.injEq] at h
      subst h
      exact ⟨foldl_best_mem score l a, fun c hc => foldl_best_le score l a c hc⟩

set_option maxRecDepth 8000 in
/-- C3: the grid has six parameter names with three candidate values each;
the combinations examined are exactly the Cartesian product of the candidate
tuples, 729 in all; and whatever mean score each combination obtains, the
search reports a best-performing combination: an examined one that no
examined combination outscores. -/
theorem grid_search_exhaustive (score : List (String × HParam) → ℚ) :
    parameters_grid.length = 6 ∧
    (∀ p ∈ parameters_grid, p.2.length = 3) ∧
    (gridCombinations parameters_grid).length = 729 ∧
    (∀ c : List (String × HParam),
      c ∈ gridCombinations parameters_grid ↔
        List.Forall₂ (fun pr q => pr.1 = q.1 ∧ pr.2 ∈ q.2) c parameters_grid) ∧
    (∃ best, grid_search_best_params score parameters_grid = some best ∧
      best ∈ gridCombinations parameters_grid ∧
      ∀ c ∈ gridCombinations parameters_grid, score c ≤ score best) := by
  refine ⟨rfl, by decide, rfl, mem_gridCombinations parameters_grid, ?_⟩
  rcases hgc : gridCombinations parameters_grid with _ | ⟨a, l⟩
  · exfalso
    have h729 : (gridCombinations parameters_grid).length = 729 := rfl
    rw [hgc] at h729
    simp at h729
  · refine ⟨l.foldl (fun b c => if score b < score c then c else b) a, ?_, ?_, ?_⟩
    · show bestBy score (gridCombinations parameters_grid) =
        some (l.foldl (fun b c => if score b < score c then c else b) a)
      rw [hgc]
      rfl
    · exact (bestBy_spec score (a :: l) _ rfl).1
    · exact (bestBy_spec score (a :: l) _ rfl).2

/-- Console lines produced by the ten helper calls are all console output. -/
theorem filter_consoleOut_map (r : RACall → String) (l : List RACall) :
    (l.map (fun c => Effect.consoleOut (r c))).filter
      (fun e => ! e.isConsoleOutput) = [] := by
  induction l with
  | nil => rfl
  | cons c l ih => simp [List.filter_cons, Effect.isConsoleOutput, ih]

/-- C6: whatever texts the library numerics render, the only effect of a
notebook run that is not console output is the single read of the CSV at its
relative path; in particular nothing is written to any file, no CLI flag and
no persistent state is read or written, and the dataset is never written
back. -/
theorem notebook_effects_frame (headText : String) (rateLine : RACall → String)
    (bestParamsText scoreText : String) :
    (notebookEffects headText rateLine bestParamsText scoreText).filter
      (fun e => ! e.isConsoleOutput) = [Effect.readFile ("../datasets/iris.csv")] ∧
    ∀ e ∈ notebookEffects headText rateLine bestParamsText scoreText,
      e.isConsoleOutput = true ∨ e = Effect.readFile ("../datasets/iris.csv") := by
  have h1 : (notebookEffects headText rateLine bestParamsText scoreText).filter
      (fun e => ! e.isConsoleOutput) = [Effect.readFile ("../datasets/iris.csv")] := by
    simp [notebookEffects, List.filter_append, List.filter_cons,
      Effect.isConsoleOutput, filter_consoleOut_map]
  refine ⟨h1, fun e he => ?_⟩
  by_cases hc : e.isConsoleOutput = true
  · exact Or.inl hc
  · right
    have hmem : e ∈ (notebookEffects headText rateLine bestParamsText scoreText).filter
        (fun e => ! e.isConsoleOutput) := by
      refine List.mem_filter.mpr ⟨he, ?_⟩
      simp only [Bool.not_eq_true] at hc
      simp [hc]
    rw [h1] at hmem
    simpa using hmem
